import Mathlib

/-!
Shallow embedding of `ftm_ai_analyzer.py` (FTMAnalyzer): flow splitting,
phase-windowed aggregation, the four advisory threshold rules, the summary
report and the chart data extraction.  Machine floats are idealised as exact
rationals; the float value NaN (produced by pandas for the mean/std of an
empty selection) is modelled by `Option.none`, and a Python comparison
`NaN > c`, which is `False`, is modelled by matching on `none`.
-/

namespace FTM

/-- One measurement row of the input CSV, with the columns the script reads:
Flow, Time(s), Distance(m), Throughput(Mbps), PDR(%), Loss(%), Delay(ms),
RSSI(dBm), TxPower(dBm), AI_Decision. -/
structure Row where
  flow : String
  time : ℚ
  distance : ℚ
  throughput : ℚ
  pdr : ℚ
  loss : ℚ
  delay : ℚ
  rssi : ℚ
  txPower : ℚ
  aiDecision : String
deriving DecidableEq, Repr

/-- Flow label of the static station, `AP1-STA1` in the script. -/
def sta1Flow : String := "AP1-STA1"

/-- Flow label of the mobile station, `AP2-STA2` in the script. -/
def sta2Flow : String := "AP2-STA2"

/-- Mirrors line 26: the rows whose Flow column equals `AP1-STA1`. -/
def sta1Data (df : List Row) : List Row :=
  df.filter (fun r => r.flow == sta1Flow)

/-- Mirrors line 27: the rows whose Flow column equals `AP2-STA2`. -/
def sta2Data (df : List Row) : List Row :=
  df.filter (fun r => r.flow == sta2Flow)

/-- Arithmetic mean as pandas `.mean()` computes it on a nonempty series
(the script only consults a mean after checking the selection is nonempty;
on `[]` rational division yields the junk value `0`, never used there). -/
def meanQ (l : List ℚ) : ℚ := l.sum / (l.length : ℚ)

/-- Pandas `.mean()` including the empty case: the mean of an empty series
is NaN, modelled as `none`. -/
def meanOpt (l : List ℚ) : Option ℚ :=
  if l.isEmpty then none else some (meanQ l)

/-- Sample variance, the square of pandas `.std()` (default `ddof=1`).
`.std()` on fewer than two observations is NaN (`0/0`), modelled as `none`.
The script uses the standard deviation only in the comparison
`std > 0.5`; since `std = sqrt var` and both sides are nonnegative this
holds iff `var > 0.25`, which keeps the embedding inside `ℚ`. -/
def sampleVar (l : List ℚ) : Option ℚ :=
  if 2 ≤ l.length then
    some (((l.map (fun x => (x - meanQ l) ^ 2)).sum) / ((l.length : ℚ) - 1))
  else none

/-- Recommendation priority labels. -/
inductive Priority where
  | HIGH
  | MEDIUM
  | LOW
deriving DecidableEq, Repr

/-- One advisory recommendation.  `metricValue` is the number the script
interpolates into the metric string (a mean, a standard deviation --
embedded as its square, see `sampleVar` -- or an interval count). -/
structure Recommendation where
  priority : Priority
  issue : String
  metricValue : ℚ
  action : String
deriving DecidableEq, Repr

def farThroughputIssue : String := "Severe throughput degradation at far distances"

def farThroughputAction : String := "Increase TX power by 3-4 dBm or implement beamforming"

def weakSignalIssue : String := "Weak signal strength at far distances"

def weakSignalAction : String := "Deploy additional AP or use directional antennas"

def highLossIssue : String := "High packet loss detected"

def highLossAction : String := "Implement rate adaptation or increase retransmission limit"

def stabilityIssue : String := "Throughput variability in static station"

def stabilityAction : String := "Check for interference or adjust channel selection"

/-- Mirrors line 94: the mobile rows whose distance is strictly above 15. -/
def farDistanceRows (sta2 : List Row) : List Row :=
  sta2.filter (fun r => decide (r.distance > 15))

/-- Embeds `ai_recommendations` (lines 90-135): the four threshold rules,
appended in source order into one list. -/
def aiRecommendations (df : List Row) : List Recommendation :=
  let sta2 := sta2Data df
  let sta1 := sta1Data df
  let mobileRecs :=
    if sta2.length > 0 then
      let far := farDistanceRows sta2
      let farRecs :=
        if far.length > 0 then
          let avgThroughputFar := meanQ (far.map Row.throughput)
          let avgRssiFar := meanQ (far.map Row.rssi)
          (if avgThroughputFar < 3 then
            [{ priority := .HIGH, issue := farThroughputIssue,
               metricValue := avgThroughputFar, action := farThroughputAction }]
          else []) ++
          (if avgRssiFar < -75 then
            [{ priority := .MEDIUM, issue := weakSignalIssue,
               metricValue := avgRssiFar, action := weakSignalAction }]
          else [])
        else []
      let highLoss := sta2.filter (fun r => decide (r.loss > 10))
      farRecs ++
      (if highLoss.length > 0 then
        [{ priority := .MEDIUM, issue := highLossIssue,
           metricValue := (highLoss.length : ℚ), action := highLossAction }]
      else [])
    else []
  let staticRecs :=
    if sta1.length > 0 then
      match sampleVar (sta1.map Row.throughput) with
      | none => []
      | some v =>
        if v > (1 / 2 : ℚ) ^ 2 then
          [{ priority := .LOW, issue := stabilityIssue,
             metricValue := v, action := stabilityAction }]
        else []
    else []
  mobileRecs ++ staticRecs

/-- The recommendations in `recs` carrying a given issue string. -/
def byIssue (issue : String) (recs : List Recommendation) : List Recommendation :=
  recs.filter (fun rec => rec.issue == issue)

/-- The positive confirmation printed when no rule fired (line 143). -/
def noIssuesLine : String := "✓ No critical issues detected. System performing optimally."

/-- Observable outcome of `ai_recommendations`: what it prints and what it
returns.  The function prints either the numbered recommendations or the
no-issues line, and then returns the list itself (lines 137-145). -/
structure AdvisorRun where
  printedRecs : List Recommendation
  printedNoIssues : Bool
  returned : List Recommendation
deriving DecidableEq, Repr

def runAdvisor (df : List Row) : AdvisorRun :=
  let recs := aiRecommendations df
  { printedRecs := recs
    printedNoIssues := recs.isEmpty
    returned := recs }

/-- Mirrors line 67: mobile rows with time at most 5 s. -/
def phase1Rows (sta2 : List Row) : List Row :=
  sta2.filter (fun r => decide (r.time ≤ 5))

/-- Mirrors lines 68-69: mobile rows with time in (5, 10]. -/
def phase2Rows (sta2 : List Row) : List Row :=
  sta2.filter (fun r => decide (r.time > 5) && decide (r.time ≤ 10))

/-- Mirrors lines 70-71: mobile rows with time in (10, 15]. -/
def phase3Rows (sta2 : List Row) : List Row :=
  sta2.filter (fun r => decide (r.time > 10) && decide (r.time ≤ 15))

/-- Mirrors line 72: mobile rows with time strictly above 15 s. -/
def phase4Rows (sta2 : List Row) : List Row :=
  sta2.filter (fun r => decide (r.time > 15))

/-- Left-pads the decimal digits of `n` with zeros to `width` characters. -/
def padZeros (width : ℕ) (n : ℕ) : String :=
  let s := toString n
  String.mk (List.replicate (width - s.length) '0') ++ s

/-- Renders `q` with `prec` digits after the decimal point, as the Python
format specifier `.3f` does for finite values (idealised: exact rational
rounding in place of binary-double rounding). -/
def decimalFmt (prec : ℕ) (q : ℚ) : String :=
  let n : ℤ := round (q * (10 : ℚ) ^ prec)
  let sign := if n < 0 then "-" else ""
  sign ++ toString (n.natAbs / 10 ^ prec) ++ "." ++ padZeros prec (n.natAbs % 10 ^ prec)

/-- Python renders the float NaN as the text `nan` under the `.3f` format. -/
def fmtMean3 : Option ℚ → String
  | none => "nan"
  | some q => decimalFmt 3 q

/-- The four movement-phase lines printed by `analyze_performance`
(lines 74-82), including the mean of a possibly empty phase selection. -/
def movementPhaseLines (sta2 : List Row) : List String :=
  [ "  Phase 1 (0-5s, ~5m):    Avg Throughput = " ++
      fmtMean3 (meanOpt ((phase1Rows sta2).map Row.throughput)) ++ " Mbps",
    "  Phase 2 (5-10s, moving): Avg Throughput = " ++
      fmtMean3 (meanOpt ((phase2Rows sta2).map Row.throughput)) ++ " Mbps",
    "  Phase 3 (10-15s, ~20m):  Avg Throughput = " ++
      fmtMean3 (meanOpt ((phase3Rows sta2).map Row.throughput)) ++ " Mbps",
    "  Phase 4 (15-20s, moving): Avg Throughput = " ++
      fmtMean3 (meanOpt ((phase4Rows sta2).map Row.throughput)) ++ " Mbps" ]

/-- The phase-analysis block of `analyze_performance`: printed only when the
mobile subset is nonempty (guard at line 55). -/
def sta2PhaseReport (df : List Row) : List String :=
  if (sta2Data df).length > 0 then movementPhaseLines (sta2Data df) else []

/-- First-occurrence distinct values followed by per-value counts, sorted by
count descending: pandas `Series.value_counts()` (line 344). -/
def valueCounts (l : List String) : List (String × ℕ) :=
  (l.dedup.map (fun d => (d, l.count d))).mergeSort (fun a b => decide (b.2 ≤ a.2))

/-- The AI_Decision column of a subset. -/
def decisionValues (rows : List Row) : List String := rows.map Row.aiDecision

/-- A row of 70 `=` characters. -/
def bar70 : String := String.mk (List.replicate 70 '=')

/-- A row of 70 `-` characters. -/
def dash70 : String := String.mk (List.replicate 70 '-')

/-- Static-station block of the text report (lines 319-327): header and rule
always written, statistics only when the subset is nonempty. -/
def sta1ReportSection (df : List Row) : List String :=
  let sta1 := sta1Data df
  ["[STA1 - STATIC STATION]", dash70] ++
  (if sta1.length > 0 then
    [ "Average Distance:    " ++ decimalFmt 2 (meanQ (sta1.map Row.distance)) ++ " m",
      "Average Throughput:  " ++ decimalFmt 3 (meanQ (sta1.map Row.throughput)) ++ " Mbps",
      "Average PDR:         " ++ decimalFmt 2 (meanQ (sta1.map Row.pdr)) ++ "%",
      "Average Loss:        " ++ decimalFmt 2 (meanQ (sta1.map Row.loss)) ++ "%",
      "Average Delay:       " ++ decimalFmt 3 (meanQ (sta1.map Row.delay)) ++ " ms",
      "Average RSSI:        " ++ decimalFmt 2 (meanQ (sta1.map Row.rssi)) ++ " dBm",
      "" ]
  else [])

/-- Minimum of a nonempty rational list, as pandas `.min()`. -/
def minQ (l : List ℚ) : ℚ := l.foldr min (l.headI)

/-- Maximum of a nonempty rational list, as pandas `.max()`. -/
def maxQ (l : List ℚ) : ℚ := l.foldr max (l.headI)

/-- Mobile-station block of the text report including the AI-decision
frequency table (lines 330-346). -/
def sta2ReportSection (df : List Row) : List String :=
  let sta2 := sta2Data df
  ["[STA2 - MOBILE STATION]", dash70] ++
  (if sta2.length > 0 then
    [ "Distance Range:      " ++ decimalFmt 2 (minQ (sta2.map Row.distance)) ++ " - " ++
        decimalFmt 2 (maxQ (sta2.map Row.distance)) ++ " m",
      "Average Throughput:  " ++ decimalFmt 3 (meanQ (sta2.map Row.throughput)) ++ " Mbps",
      "Average PDR:         " ++ decimalFmt 2 (meanQ (sta2.map Row.pdr)) ++ "%",
      "Average Loss:        " ++ decimalFmt 2 (meanQ (sta2.map Row.loss)) ++ "%",
      "Average Delay:       " ++ decimalFmt 3 (meanQ (sta2.map Row.delay)) ++ " ms",
      "Average RSSI:        " ++ decimalFmt 2 (meanQ (sta2.map Row.rssi)) ++ " dBm",
      "",
      "[AI DECISION SUMMARY]", dash70 ] ++
    (valueCounts (decisionValues sta2)).map
      (fun dc => dc.1 ++ ": " ++ toString dc.2 ++ " times")
  else [])

/-- Embeds `export_summary_report` (lines 311-346) as the list of lines written to
`ftm_summary_report.txt`; `now` is the formatted `datetime.now()` value. -/
def exportSummaryLines (now : String) (df : List Row) : List String :=
  [ bar70,
    "FTM ADAPTIVE WIFI - COMPREHENSIVE ANALYSIS REPORT",
    bar70,
    "Generated: " ++ now,
    "Total Samples: " ++ toString df.length,
    "" ] ++
  sta1ReportSection df ++
  sta2ReportSection df

/-- The data series handed to the chart library: a deterministic extraction
from the input table (visualize_results and plot_ai_decisions). -/
structure ChartData where
  sta1Times : List ℚ
  sta1Throughputs : List ℚ
  sta2Times : List ℚ
  sta2Throughputs : List ℚ
  sta2Distances : List ℚ
  sta2Rssi : List ℚ
  decisions : List String
deriving DecidableEq, Repr

def chartData (df : List Row) : ChartData :=
  { sta1Times := (sta1Data df).map Row.time
    sta1Throughputs := (sta1Data df).map Row.throughput
    sta2Times := (sta2Data df).map Row.time
    sta2Throughputs := (sta2Data df).map Row.throughput
    sta2Distances := (sta2Data df).map Row.distance
    sta2Rssi := (sta2Data df).map Row.rssi
    decisions := decisionValues (sta2Data df) }

/-- Everything one run of `run_complete_analysis` produces from a loaded
table; the ambient timestamp only enters through the report. -/
structure RunOutputs where
  reportLines : List String
  recs : List Recommendation
  charts : ChartData
deriving DecidableEq, Repr

def runPipeline (now : String) (df : List Row) : RunOutputs :=
  { reportLines := exportSummaryLines now df
    recs := aiRecommendations df
    charts := chartData df }

/-- Default input path of the analyzer. -/
def csvPath : String := "result/ftm_metrics.csv"

/-- Outcome of `main`: exit status, the error lines printed on a missing
input, and the pipeline outputs when the input exists. -/
structure MainRun where
  exitCode : ℕ
  errLines : List String
  outputs : Option RunOutputs
deriving DecidableEq, Repr

/-- Embeds `main` with the filesystem abstracted to `Option`: `none` when the CSV
path does not exist (the constructor then prints and calls `sys.exit(1)`,
lines 17-20), `some df` for a parsed table. -/
def runMain (now : String) (input : Option (List Row)) : MainRun :=
  match input with
  | none =>
    { exitCode := 1
      errLines := [ "Error: " ++ csvPath ++ " not found!",
                    "Please run the NS-3 simulation first." ]
      outputs := none }
  | some df =>
    { exitCode := 0
      errLines := []
      outputs := some (runPipeline now df) }

/-! Decomposition of `aiRecommendations` into its four rules, for proofs. -/

/-- Rule 1 in isolation: far-distance throughput. -/
def tpRecs (df : List Row) : List Recommendation :=
  if (sta2Data df).length > 0 then
    if (farDistanceRows (sta2Data df)).length > 0 then
      if meanQ ((farDistanceRows (sta2Data df)).map Row.throughput) < 3 then
        [{ priority := .HIGH, issue := farThroughputIssue,
           metricValue := meanQ ((farDistanceRows (sta2Data df)).map Row.throughput),
           action := farThroughputAction }]
      else []
    else []
  else []

/-- Rule 2 in isolation: far-distance signal strength. -/
def sigRecs (df : List Row) : List Recommendation :=
  if (sta2Data df).length > 0 then
    if (farDistanceRows (sta2Data df)).length > 0 then
      if meanQ ((farDistanceRows (sta2Data df)).map Row.rssi) < -75 then
        [{ priority := .MEDIUM, issue := weakSignalIssue,
           metricValue := meanQ ((farDistanceRows (sta2Data df)).map Row.rssi),
           action := weakSignalAction }]
      else []
    else []
  else []

/-- Rule 3 in isolation: packet loss. -/
def lossRecs (df : List Row) : List Recommendation :=
  if (sta2Data df).length > 0 then
    if ((sta2Data df).filter (fun r => decide (r.loss > 10))).length > 0 then
      [{ priority := .MEDIUM, issue := highLossIssue,
         metricValue := (((sta2Data df).filter (fun r => decide (r.loss > 10))).length : ℚ),
         action := highLossAction }]
    else []
  else []

/-- Rule 4 in isolation: static-station stability. -/
def stabRecs (df : List Row) : List Recommendation :=
  if (sta1Data df).length > 0 then
    match sampleVar ((sta1Data df).map Row.throughput) with
    | none => []
    | some v =>
      if v > (1 / 2 : ℚ) ^ 2 then
        [{ priority := .LOW, issue := stabilityIssue,
           metricValue := v, action := stabilityAction }]
      else []
  else []

/-! Concrete input tables used to instantiate the theorems below. -/

/-- A measurement row with the varying columns filled in and the columns no
rule reads held at benign constants. -/
def mkRow (flow : String) (time distance throughput loss rssi : ℚ)
    (dec : String) : Row :=
  { flow := flow, time := time, distance := distance, throughput := throughput,
    pdr := 100, loss := loss, delay := 1, rssi := rssi, txPower := 16,
    aiDecision := dec }

/-- One mobile row beyond 15 m with throughput 2 Mbps. -/
def c1Df : List Row := [mkRow sta2Flow 12 20 2 0 (-60) "increase_power"]

/-- Mobile flow with three rows whose loss values are 12%, 15% and 5%. -/
def c3Df : List Row :=
  [ mkRow sta2Flow 1 5 5 12 (-50) "maintain",
    mkRow sta2Flow 2 5 5 15 (-50) "maintain",
    mkRow sta2Flow 3 5 5 5 (-50) "maintain" ]

/-- A mobile row whose time is exactly 10 s, on a window boundary. -/
def c5Row10 : Row := mkRow sta2Flow 10 20 3 0 (-60) "maintain"

/-- A mobile row at 7 s, inside the second phase window. -/
def c5Row7 : Row := mkRow sta2Flow 7 12 4 0 (-60) "maintain"

/-- A mobile flow whose only row is at 1 s, so the (5,10] window is empty. -/
def c6Df : List Row := [mkRow sta2Flow 1 5 5 0 (-50) "maintain"]

/-- A mobile flow with rows at 1 s and 20 s and none inside (5,10]. -/
def c6WitnessDf : List Row :=
  [ mkRow sta2Flow 1 5 5 0 (-50) "maintain",
    mkRow sta2Flow 20 10 4 0 (-65) "decrease_power" ]

/-- A static flow containing exactly one row. -/
def c10Df : List Row := [mkRow sta1Flow 1 5 5 0 (-40) "maintain"]

theorem aiRecommendations_decomp (df : List Row) :
    aiRecommendations df = tpRecs df ++ sigRecs df ++ lossRecs df ++ stabRecs df := by
  unfold aiRecommendations tpRecs sigRecs lossRecs stabRecs
  by_cases h2 : (sta2Data df).length > 0 <;>
    by_cases hf : (farDistanceRows (sta2Data df)).length > 0 <;>
      simp [h2, hf]

theorem byIssue_append (i : String) (a b : List Recommendation) :
    byIssue i (a ++ b) = byIssue i a ++ byIssue i b :=
  List.filter_append a b

theorem byIssue_ite (i : String) (c : Prop) [Decidable c] (l : List Recommendation) :
    byIssue i (if c then l else []) = if c then byIssue i l else [] := by
  split <;> rfl

theorem byIssue_singleton_ne (i : String) (r : Recommendation)
    (h : (r.issue == i) = false) : byIssue i [r] = [] := by
  simp [byIssue, h]

theorem byIssue_singleton_eq (i : String) (r : Recommendation)
    (h : (r.issue == i) = true) : byIssue i [r] = [r] := by
  simp [byIssue, h]

theorem byIssue_tpRecs (df : List Row) :
    byIssue farThroughputIssue (tpRecs df) = tpRecs df := by
  unfold tpRecs
  repeat' split
  all_goals rfl

theorem byIssue_sigRecs (df : List Row) :
    byIssue weakSignalIssue (sigRecs df) = sigRecs df := by
  unfold sigRecs
  repeat' split
  all_goals rfl

theorem byIssue_lossRecs (df : List Row) :
    byIssue highLossIssue (lossRecs df) = lossRecs df := by
  unfold lossRecs
  repeat' split
  all_goals rfl

theorem byIssue_stabRecs (df : List Row) :
    byIssue stabilityIssue (stabRecs df) = stabRecs df := by
  unfold stabRecs
  repeat' split
  all_goals rfl

theorem byIssue_other_tpRecs (i : String) (df : List Row)
    (h : (farThroughputIssue == i) = false) : byIssue i (tpRecs df) = [] := by
  unfold tpRecs
  repeat' split
  all_goals first | rfl | exact byIssue_singleton_ne _ _ h

theorem byIssue_other_sigRecs (i : String) (df : List Row)
    (h : (weakSignalIssue == i) = false) : byIssue i (sigRecs df) = [] := by
  unfold sigRecs
  repeat' split
  all_goals first | rfl | exact byIssue_singleton_ne _ _ h

theorem byIssue_other_lossRecs (i : String) (df : List Row)
    (h : (highLossIssue == i) = false) : byIssue i (lossRecs df) = [] := by
  unfold lossRecs
  repeat' split
  all_goals first | rfl | exact byIssue_singleton_ne _ _ h

theorem byIssue_other_stabRecs (i : String) (df : List Row)
    (h : (stabilityIssue == i) = false) : byIssue i (stabRecs df) = [] := by
  unfold stabRecs
  repeat' split
  all_goals first | rfl | exact byIssue_singleton_ne _ _ h

theorem byIssue_ai_tp (df : List Row) :
    byIssue farThroughputIssue (aiRecommendations df) = tpRecs df := by
  rw [aiRecommendations_decomp, byIssue_append, byIssue_append, byIssue_append,
    byIssue_tpRecs, byIssue_other_sigRecs _ _ (by decide),
    byIssue_other_lossRecs _ _ (by decide), byIssue_other_stabRecs _ _ (by decide)]
  simp

theorem byIssue_ai_sig (df : List Row) :
    byIssue weakSignalIssue (aiRecommendations df) = sigRecs df := by
  rw [aiRecommendations_decomp, byIssue_append, byIssue_append, byIssue_append,
    byIssue_sigRecs, byIssue_other_tpRecs _ _ (by decide),
    byIssue_other_lossRecs _ _ (by decide), byIssue_other_stabRecs _ _ (by decide)]
  simp

theorem byIssue_ai_loss (df : List Row) :
    byIssue highLossIssue (aiRecommendations df) = lossRecs df := by
  rw [aiRecommendations_decomp, byIssue_append, byIssue_append, byIssue_append,
    byIssue_lossRecs, byIssue_other_tpRecs _ _ (by decide),
    byIssue_other_sigRecs _ _ (by decide), byIssue_other_stabRecs _ _ (by decide)]
  simp

theorem byIssue_ai_stab (df : List Row) :
    byIssue stabilityIssue (aiRecommendations df) = stabRecs df := by
  rw [aiRecommendations_decomp, byIssue_append, byIssue_append, byIssue_append,
    byIssue_stabRecs, byIssue_other_tpRecs _ _ (by decide),
    byIssue_other_sigRecs _ _ (by decide), byIssue_other_lossRecs _ _ (by decide)]
  simp

theorem sta2_pos_of_far (df : List Row)
    (h : farDistanceRows (sta2Data df) ≠ []) : (sta2Data df).length > 0 := by
  rcases List.eq_nil_or_concat (sta2Data df) with he | _
  · exact absurd (by rw [he]; rfl) h
  · cases hs : sta2Data df with
    | nil => exact absurd (by rw [farDistanceRows, hs]; rfl) h
    | cons a l => simp

theorem mem_phase1Rows (sta2 : List Row) (r : Row) :
    r ∈ phase1Rows sta2 ↔ r ∈ sta2 ∧ r.time ≤ 5 := by
  simp [phase1Rows, List.mem_filter]

theorem mem_phase2Rows (sta2 : List Row) (r : Row) :
    r ∈ phase2Rows sta2 ↔ r ∈ sta2 ∧ (5 < r.time ∧ r.time ≤ 10) := by
  simp [phase2Rows, List.mem_filter]

theorem mem_phase3Rows (sta2 : List Row) (r : Row) :
    r ∈ phase3Rows sta2 ↔ r ∈ sta2 ∧ (10 < r.time ∧ r.time ≤ 15) := by
  simp [phase3Rows, List.mem_filter]

theorem mem_phase4Rows (sta2 : List Row) (r : Row) :
    r ∈ phase4Rows sta2 ↔ r ∈ sta2 ∧ 15 < r.time := by
  simp [phase4Rows, List.mem_filter]

theorem priority_tpRecs (df : List Row) :
    ∀ rec ∈ tpRecs df, rec.priority = Priority.HIGH := by
  unfold tpRecs
  repeat' split
  all_goals simp

theorem priority_sigRecs (df : List Row) :
    ∀ rec ∈ sigRecs df, rec.priority = Priority.MEDIUM := by
  unfold sigRecs
  repeat' split
  all_goals simp

theorem priority_lossRecs (df : List Row) :
    ∀ rec ∈ lossRecs df, rec.priority = Priority.MEDIUM := by
  unfold lossRecs
  repeat' split
  all_goals simp

/-- Claim C1: when the mobile flow has at least one row with distance
strictly greater than 15, the Advisor emits the priority-HIGH
"Severe throughput degradation at far distances" recommendation, with the
mean throughput of those far rows as its metric value, exactly when that
mean is strictly below 3.0 Mbps; otherwise the rule emits nothing. -/
theorem farThroughput_rule_characterization (df : List Row)
    (h : farDistanceRows (sta2Data df) ≠ []) :
    byIssue farThroughputIssue (aiRecommendations df) =
      if meanQ ((farDistanceRows (sta2Data df)).map Row.throughput) < 3 then
        [{ priority := .HIGH, issue := farThroughputIssue,
           metricValue := meanQ ((farDistanceRows (sta2Data df)).map Row.throughput),
           action := farThroughputAction }]
      else [] := by
  rw [byIssue_ai_tp]
  unfold tpRecs
  rw [if_pos (sta2_pos_of_far df h), if_pos (List.length_pos.mpr h)]

/-- Witness for C1: a single far mobile row with throughput 2 Mbps makes the
far subset nonempty and the rule fire with metric value 2. -/
theorem farThroughput_rule_characterization_witness :
    farDistanceRows (sta2Data c1Df) ≠ [] ∧
    byIssue farThroughputIssue (aiRecommendations c1Df) =
      [{ priority := .HIGH, issue := farThroughputIssue, metricValue := 2,
         action := farThroughputAction }] := by
  have hfar : farDistanceRows (sta2Data c1Df) =
      [mkRow sta2Flow 12 20 2 0 (-60) "increase_power"] := by decide
  have hm : meanQ ((farDistanceRows (sta2Data c1Df)).map Row.throughput) = 2 := by
    rw [hfar]
    norm_num [meanQ, mkRow]
  refine ⟨by decide, ?_⟩
  rw [farThroughput_rule_characterization c1Df (by decide), hm,
    if_pos (by norm_num : (2 : ℚ) < 3)]

/-- Claim C2: the far-distance throughput rule and the far-distance signal
rule fire independently.  The number of emitted recommendations carrying
each of the two issues equals the indicator of the condition of that rule,
so when exactly one condition holds exactly one of the two recommendations
is emitted, and when both hold both are emitted. -/
theorem farRules_fire_independently (df : List Row) :
    (byIssue farThroughputIssue (aiRecommendations df)).length =
      (if farDistanceRows (sta2Data df) ≠ [] ∧
          meanQ ((farDistanceRows (sta2Data df)).map Row.throughput) < 3
        then 1 else 0) ∧
    (byIssue weakSignalIssue (aiRecommendations df)).length =
      (if farDistanceRows (sta2Data df) ≠ [] ∧
          meanQ ((farDistanceRows (sta2Data df)).map Row.rssi) < -75
        then 1 else 0) := by
  constructor
  · rw [byIssue_ai_tp]
    unfold tpRecs
    by_cases hfar : farDistanceRows (sta2Data df) = []
    · rw [hfar]
      simp
    · rw [if_pos (sta2_pos_of_far df hfar), if_pos (List.length_pos.mpr hfar)]
      by_cases hm : meanQ ((farDistanceRows (sta2Data df)).map Row.throughput) < 3
      · rw [if_pos hm, if_pos ⟨hfar, hm⟩]
        rfl
      · rw [if_neg hm, if_neg (fun hc => hm hc.2)]
        rfl
  · rw [byIssue_ai_sig]
    unfold sigRecs
    by_cases hfar : farDistanceRows (sta2Data df) = []
    · rw [hfar]
      simp
    · rw [if_pos (sta2_pos_of_far df hfar), if_pos (List.length_pos.mpr hfar)]
      by_cases hm : meanQ ((farDistanceRows (sta2Data df)).map Row.rssi) < -75
      · rw [if_pos hm, if_pos ⟨hfar, hm⟩]
        rfl
      · rw [if_neg hm, if_neg (fun hc => hm hc.2)]
        rfl

/-- Claim C3: for a nonempty mobile flow the packet-loss rule emits the
priority-MEDIUM "High packet loss detected" recommendation exactly when
some mobile row has loss strictly above 10%, and its metric value is the
count of such rows. -/
theorem packetLoss_rule_characterization (df : List Row)
    (h : sta2Data df ≠ []) :
    byIssue highLossIssue (aiRecommendations df) =
      if 0 < ((sta2Data df).filter (fun r => decide (r.loss > 10))).length then
        [{ priority := .MEDIUM, issue := highLossIssue,
           metricValue :=
             (((sta2Data df).filter (fun r => decide (r.loss > 10))).length : ℚ),
           action := highLossAction }]
      else [] := by
  rw [byIssue_ai_loss]
  unfold lossRecs
  rw [if_pos (List.length_pos.mpr h)]

/-- Witness for C3: the mobile flow with loss values 12%, 15% and 5% makes
the packet-loss rule fire once with metric count 2. -/
theorem packetLoss_rule_characterization_witness :
    sta2Data c3Df ≠ [] ∧
    byIssue highLossIssue (aiRecommendations c3Df) =
      [{ priority := .MEDIUM, issue := highLossIssue, metricValue := 2,
         action := highLossAction }] := by
  have hc : ((sta2Data c3Df).filter (fun r => decide (r.loss > 10))).length = 2 := by
    decide
  refine ⟨by decide, ?_⟩
  rw [packetLoss_rule_characterization c3Df (by decide), hc,
    if_pos (by norm_num : 0 < 2)]
  norm_num

/-- Counterexample to Claim C4 as stated: on an input where no rule fires
the value returned by `ai_recommendations` is exactly the empty
recommendation list, not a result distinct from it. -/
theorem advisor_empty_return_cex :
    (runAdvisor ([] : List Row)).returned = ([] : List Recommendation) := by
  decide

/-- Claim C4 (amended): when zero rules fire the Advisor prints the explicit
no-issues confirmation, but its return value is the empty recommendation
list itself; the printed confirmation, not the return value, is what
distinguishes the no-issues outcome. -/
theorem advisor_no_issues_amended (df : List Row) :
    ((runAdvisor df).printedNoIssues = true ↔ (runAdvisor df).returned = []) ∧
    (runAdvisor df).returned = aiRecommendations df := by
  refine ⟨?_, rfl⟩
  simp [runAdvisor]

/-- Counterexample to Claim C5 as stated: the phase windows are not
half-open intervals of the form [lo, hi).  The row at time 10 s lies inside
the second window even though 10 < 10 fails, so the second window contains
its right endpoint (it is (5, 10], left-open right-closed). -/
theorem phase_window_halfopen_cex :
    c5Row10 ∈ phase2Rows [c5Row10] ∧ ¬ (c5Row10.time < 10) := by decide

/-- Claim C5 (amended): the four phase windows are left-open right-closed,
(-inf,5], (5,10], (10,15], (15,inf), and they partition the time domain of
the mobile flow: every mobile row is assigned to exactly one of the four phase
subsets, none is dropped and none appears in two phases. -/
theorem phase_windows_partition (sta2 : List Row) (r : Row) (h : r ∈ sta2) :
    (r ∈ phase1Rows sta2 ∧ r ∉ phase2Rows sta2 ∧
      r ∉ phase3Rows sta2 ∧ r ∉ phase4Rows sta2) ∨
    (r ∉ phase1Rows sta2 ∧ r ∈ phase2Rows sta2 ∧
      r ∉ phase3Rows sta2 ∧ r ∉ phase4Rows sta2) ∨
    (r ∉ phase1Rows sta2 ∧ r ∉ phase2Rows sta2 ∧
      r ∈ phase3Rows sta2 ∧ r ∉ phase4Rows sta2) ∨
    (r ∉ phase1Rows sta2 ∧ r ∉ phase2Rows sta2 ∧
      r ∉ phase3Rows sta2 ∧ r ∈ phase4Rows sta2) := by
  simp only [mem_phase1Rows, mem_phase2Rows, mem_phase3Rows, mem_phase4Rows,
    h, true_and]
  rcases le_or_lt r.time 5 with h1 | h1
  · refine Or.inl ⟨h1, ?_, ?_, ?_⟩
    · rintro ⟨h5, -⟩
      linarith
    · rintro ⟨h10, -⟩
      linarith
    · intro h15
      linarith
  · rcases le_or_lt r.time 10 with h2 | h2
    · refine Or.inr (Or.inl ⟨?_, ⟨h1, h2⟩, ?_, ?_⟩)
      · intro h5
        linarith
      · rintro ⟨h10, -⟩
        linarith
      · intro h15
        linarith
    · rcases le_or_lt r.time 15 with h3 | h3
      · refine Or.inr (Or.inr (Or.inl ⟨?_, ?_, ⟨h2, h3⟩, ?_⟩))
        · intro h5
          linarith
        · rintro ⟨-, h10⟩
          linarith
        · intro h15
          linarith
      · refine Or.inr (Or.inr (Or.inr ⟨?_, ?_, ?_, h3⟩))
        · intro h5
          linarith
        · rintro ⟨-, h10⟩
          linarith
        · rintro ⟨-, h15⟩
          linarith

/-- Witness for C5: the 7 s row of a one-row mobile flow lands in the second
phase window and in no other. -/
theorem phase_windows_partition_witness :
    c5Row7 ∈ [c5Row7] ∧
    ((c5Row7 ∈ phase1Rows [c5Row7] ∧ c5Row7 ∉ phase2Rows [c5Row7] ∧
       c5Row7 ∉ phase3Rows [c5Row7] ∧ c5Row7 ∉ phase4Rows [c5Row7]) ∨
     (c5Row7 ∉ phase1Rows [c5Row7] ∧ c5Row7 ∈ phase2Rows [c5Row7] ∧
       c5Row7 ∉ phase3Rows [c5Row7] ∧ c5Row7 ∉ phase4Rows [c5Row7]) ∨
     (c5Row7 ∉ phase1Rows [c5Row7] ∧ c5Row7 ∉ phase2Rows [c5Row7] ∧
       c5Row7 ∈ phase3Rows [c5Row7] ∧ c5Row7 ∉ phase4Rows [c5Row7]) ∨
     (c5Row7 ∉ phase1Rows [c5Row7] ∧ c5Row7 ∉ phase2Rows [c5Row7] ∧
       c5Row7 ∉ phase3Rows [c5Row7] ∧ c5Row7 ∈ phase4Rows [c5Row7])) :=
  ⟨by decide, phase_windows_partition [c5Row7] c5Row7 (by decide)⟩

/-- Counterexample to Claim C6 as stated: with a nonempty mobile flow whose
only row is at 1 s, the (5,10] phase window is empty and the printed Phase 2
line renders its mean throughput as the text `nan`, not as an explicit
absent/no-data value. -/
theorem empty_phase_prints_nan_cex :
    (sta2PhaseReport c6Df).get? 1 =
      some "  Phase 2 (5-10s, moving): Avg Throughput = nan Mbps" := by
  decide

/-- Claim C6 (amended): an aggregate over an empty selection never raises
(the mean of an empty phase window is NaN, modelled as `none`), but the
NaN is not normalised away: whenever the mobile flow is nonempty and the
(5,10] window has no rows, the printed Phase 2 line surfaces the missing
mean as the text `nan` rather than as an explicit absent marker. -/
theorem empty_phase_mean_prints_nan (df : List Row)
    (h2 : (sta2Data df).length > 0)
    (hp : phase2Rows (sta2Data df) = []) :
    meanOpt ((phase2Rows (sta2Data df)).map Row.throughput) = none ∧
    (sta2PhaseReport df).get? 1 =
      some "  Phase 2 (5-10s, moving): Avg Throughput = nan Mbps" := by
  constructor
  · rw [hp]
    rfl
  · unfold sta2PhaseReport
    rw [if_pos h2]
    unfold movementPhaseLines
    rw [hp]
    rfl

/-- Witness for C6: a mobile flow with rows at 1 s and 20 s only. -/
theorem empty_phase_mean_prints_nan_witness :
    ((sta2Data c6WitnessDf).length > 0 ∧ phase2Rows (sta2Data c6WitnessDf) = []) ∧
    (meanOpt ((phase2Rows (sta2Data c6WitnessDf)).map Row.throughput) = none ∧
     (sta2PhaseReport c6WitnessDf).get? 1 =
       some "  Phase 2 (5-10s, moving): Avg Throughput = nan Mbps") :=
  ⟨⟨by decide, by decide⟩,
    empty_phase_mean_prints_nan c6WitnessDf (by decide) (by decide)⟩

theorem valueCounts_perm (l : List String) :
    (valueCounts l).Perm (l.dedup.map (fun d => (d, l.count d))) :=
  List.mergeSort_perm _ _

/-- Claim C7: the AI-decision frequency counts written to the text report
sum exactly to the number of rows in the mobile flow subset, the table has
exactly one entry per decision category present in the data, and the table
is a deterministic function of the input, hence stable across runs. -/
theorem decision_frequency_counts (df : List Row) :
    ((valueCounts (decisionValues (sta2Data df))).map Prod.snd).sum =
      (sta2Data df).length ∧
    ((valueCounts (decisionValues (sta2Data df))).map Prod.fst).Nodup ∧
    (∀ d : String,
      d ∈ (valueCounts (decisionValues (sta2Data df))).map Prod.fst ↔
        d ∈ decisionValues (sta2Data df)) := by
  set l : List String := decisionValues (sta2Data df) with hl
  have hperm := valueCounts_perm l
  have hfst : ((l.dedup.map (fun d => (d, l.count d))).map Prod.fst) = l.dedup := by
    rw [List.map_map]
    simp [Function.comp_def]
  refine ⟨?_, ?_, ?_⟩
  · rw [((hperm.map Prod.snd).sum_eq : _), List.map_map]
    have hlen : l.length = (sta2Data df).length := by
      rw [hl]
      exact List.length_map _ _
    rw [← hlen]
    simpa [Function.comp_def] using List.sum_map_count_dedup_eq_length l
  · rw [(hperm.map Prod.fst).nodup_iff, hfst]
    exact l.nodup_dedup
  · intro d
    rw [(hperm.map Prod.fst).mem_iff, hfst, List.mem_dedup]

/-- Claim C8: the pipeline is a deterministic function of the input table
alone.  Two runs over the same table, differing only in the ambient
timestamp, produce the same recommendation list, the same chart data, and
text reports that agree on every line except the explicit generation
timestamp at index 3. -/
theorem pipeline_two_run_determinism (t1 t2 : String) (df : List Row) :
    (runPipeline t1 df).recs = (runPipeline t2 df).recs ∧
    (runPipeline t1 df).charts = (runPipeline t2 df).charts ∧
    (runPipeline t1 df).reportLines.eraseIdx 3 =
      (runPipeline t2 df).reportLines.eraseIdx 3 ∧
    (runPipeline t1 df).reportLines.get? 3 = some ("Generated: " ++ t1) := by
  refine ⟨rfl, rfl, ?_, rfl⟩
  show (exportSummaryLines t1 df).eraseIdx 3 = (exportSummaryLines t2 df).eraseIdx 3
  unfold exportSummaryLines
  rfl

/-- Claim C9: the program exits nonzero exactly when the input file is
missing; in that case it first prints the instruction to produce the data,
and for any loaded table it runs the whole pipeline to completion with exit
status 0. -/
theorem main_exit_characterization (now : String) (df : List Row) :
    (runMain now none).exitCode = 1 ∧
    (runMain now none).errLines =
      [ "Error: result/ftm_metrics.csv not found!",
        "Please run the NS-3 simulation first." ] ∧
    (runMain now none).outputs = none ∧
    (runMain now (some df)).exitCode = 0 ∧
    (runMain now (some df)).outputs = some (runPipeline now df) :=
  ⟨rfl, rfl, rfl, rfl, rfl⟩

/-- Claim C10: when the static flow holds exactly one row the stability
rule never fires, whatever throughput the row carries: the sample standard
deviation of one observation is NaN and the guard comparison with 0.5 is
then false, so no priority-LOW recommendation is emitted at all. -/
theorem singleton_static_no_stability_rec (df : List Row)
    (h : (sta1Data df).length = 1) :
    byIssue stabilityIssue (aiRecommendations df) = [] ∧
    (aiRecommendations df).filter (fun rec => rec.priority == Priority.LOW) = [] := by
  have hv : sampleVar ((sta1Data df).map Row.throughput) = none := by
    unfold sampleVar
    rw [List.length_map, h]
    rfl
  have hs : stabRecs df = [] := by
    unfold stabRecs
    rw [hv]
    simp
  constructor
  · rw [byIssue_ai_stab, hs]
  · rw [aiRecommendations_decomp, hs]
    rw [List.filter_append, List.filter_append, List.filter_append]
    have htp : (tpRecs df).filter (fun rec => rec.priority == Priority.LOW) = [] := by
      unfold tpRecs
      repeat' split
      all_goals rfl
    have hsig : (sigRecs df).filter (fun rec => rec.priority == Priority.LOW) = [] := by
      unfold sigRecs
      repeat' split
      all_goals rfl
    have hloss : (lossRecs df).filter (fun rec => rec.priority == Priority.LOW) = [] := by
      unfold lossRecs
      repeat' split
      all_goals rfl
    rw [htp, hsig, hloss]
    rfl

/-- Witness for C10: a table whose static flow is a single row fires no
LOW-priority recommendation. -/
theorem singleton_static_no_stability_rec_witness :
    (sta1Data c10Df).length = 1 ∧
    (byIssue stabilityIssue (aiRecommendations c10Df) = [] ∧
     (aiRecommendations c10Df).filter (fun rec => rec.priority == Priority.LOW) = []) :=
  ⟨by decide, singleton_static_no_stability_rec c10Df (by decide)⟩

end FTM
